import Mathlib

/-!
Shallow embedding of the request pipeline of `uptimekuma-webhook-tgbot`
(`src/main.go`): the message composer (`buildTelegramMessage`,
`fallbackRaw`, `nestedString`, `stringFromMap`), the notification
dispatcher (`telegramClient.sendMessage`) and the request handler
(`webhookHandler`).

Modelling conventions:
* Go strings and byte slices are modelled as `List Char` (the payloads of
  interest are byte sequences; multi-byte UTF-8 subtleties are below the
  resolution of the verified claims).
* `map[string]any` values decoded by `encoding/json` with
  `decoder.UseNumber()` are modelled by `JsonValue` / `Payload`.  With
  `UseNumber` a decoded number is a `json.Number`, i.e. the literal
  numeric text; the `float64` branches of `stringFromMap` and
  `nestedString` are unreachable for decoded payloads and are therefore
  not represented in `JsonValue`.
* The standard-library JSON decoder is an external collaborator and is
  passed to the handler as a function `List Char → Option Payload`
  (`none` models a `Decode` error, in which case the Go code keeps the
  payload map it initialised to the empty map).
* The network is modelled by `ProviderBehavior`: either a transport
  error or a reply carrying the HTTP status, the raw body, and the
  (abstracted) result of JSON-decoding that body into the
  `{ok, description}` response struct.
-/

/-- Go string, viewed as its sequence of characters. -/
abbrev GoStr := List Char

/-- A decoded JSON value as produced by `encoding/json` with
`decoder.UseNumber()`: `num` carries the literal numeric text of a
`json.Number`. -/
inductive JsonValue where
  | null
  | boolean (b : Bool)
  | num (lit : GoStr)
  | str (s : GoStr)
  | arr (elems : List JsonValue)
  | obj (fields : List (GoStr × JsonValue))
deriving Repr

/-- The decoded top-level object (`map[string]any`). -/
abbrev Payload := List (GoStr × JsonValue)

/-- `maxPayloadBytes = 1 << 20` from `src/main.go`. -/
def maxPayloadBytes : Nat := 1 <<< 20

/-- The whitespace predicate of Go's `unicode.IsSpace` restricted to the
characters that can occur here: the six ASCII whitespace characters plus U+0085
and U+00A0 (further Unicode space code points are not relevant to any
claim). -/
def isGoSpace (c : Char) : Bool :=
  c = ' ' || c = '\t' || c = '\n' || c = '\x0b' || c = '\x0c' || c = '\r' ||
  c = '\u0085' || c = '\u00A0'

/-- Go's `strings.TrimSpace`: drop leading and trailing whitespace. -/
def trimSpace (s : GoStr) : GoStr :=
  ((s.dropWhile isGoSpace).reverse.dropWhile isGoSpace).reverse

/-- Go's `strings.ToUpper` (ASCII case mapping suffices here). -/
def goToUpper (s : GoStr) : GoStr := s.map Char.toUpper

/-- The `switch` shared by `stringFromMap` in `src/main.go`: a string is
trimmed, a `json.Number` renders as its literal text (`v.String()`), and
every other shape resolves to the empty string.  (The `float64` case of
the Go `switch` is unreachable: the decoder runs with `UseNumber`.) -/
def stringFromMap (payload : Payload) (key : GoStr) : GoStr :=
  match List.lookup key payload with
  | none => []
  | some v =>
    match v with
    | JsonValue.str s => trimSpace s
    | JsonValue.num lit => lit
    | _ => []

/-- The walk of `nestedString` in `src/main.go`: each key requires the
current value to be an object and looks the key up in it. -/
def nestedLookup : JsonValue → List GoStr → Option JsonValue
  | v, [] => some v
  | JsonValue.obj fields, k :: ks =>
    match List.lookup k fields with
    | some v => nestedLookup v ks
    | none => none
  | _, _ :: _ => none

/-- `nestedString` from `src/main.go`: follow the key path from the
top-level object, then apply the same rendering `switch` as
`stringFromMap`. -/
def nestedString (payload : Payload) (keys : List GoStr) : GoStr :=
  match nestedLookup (JsonValue.obj payload) keys with
  | none => []
  | some v =>
    match v with
    | JsonValue.str s => trimSpace s
    | JsonValue.num lit => lit
    | _ => []

/-- The `Monitor:` line of `buildTelegramMessage`: written only when the
extracted value is non-empty. -/
def monitorLine (payload : Payload) : GoStr :=
  let v := nestedString payload [("monitor".toList), ("name".toList)]
  if v = [] then [] else ("Monitor: ".toList) ++ v ++ ['\n']

/-- The `Status:` line of `buildTelegramMessage`: the raw status value,
uppercased, with no classification and no marker. -/
def statusLine (payload : Payload) : GoStr :=
  let v := stringFromMap payload ("status".toList)
  if v = [] then [] else ("Status: ".toList) ++ goToUpper v ++ ['\n']

/-- The `Reason:` line of `buildTelegramMessage`: `incidentReason`,
falling back to `msg`. -/
def reasonLine (payload : Payload) : GoStr :=
  let r0 := stringFromMap payload ("incidentReason".toList)
  let r := if r0 = [] then stringFromMap payload ("msg".toList) else r0
  if r = [] then [] else ("Reason: ".toList) ++ r ++ ['\n']

/-- The `URL:` line of `buildTelegramMessage`. -/
def urlLine (payload : Payload) : GoStr :=
  let v := nestedString payload [("monitor".toList), ("url".toList)]
  if v = [] then [] else ("URL: ".toList) ++ v ++ ['\n']

/-- The `Time:` line of `buildTelegramMessage`. -/
def timeLine (payload : Payload) : GoStr :=
  let v := stringFromMap payload ("time".toList)
  if v = [] then [] else ("Time: ".toList) ++ v ++ ['\n']

/-- The `Ping:` line of `buildTelegramMessage`. -/
def pingLine (payload : Payload) : GoStr :=
  let v := stringFromMap payload ("ping".toList)
  if v = [] then [] else ("Ping: ".toList) ++ v ++ ['\n']

/-- The contents of the `strings.Builder` after the six conditional
writes of `buildTelegramMessage`. -/
def fieldLines (payload : Payload) : GoStr :=
  monitorLine payload ++ statusLine payload ++ reasonLine payload ++
  urlLine payload ++ timeLine payload ++ pingLine payload

/-- `fallbackRaw` from `src/main.go`: the trimmed raw bytes, truncated to
3900 with a `...` marker when longer. -/
def fallbackRaw (raw : GoStr) : GoStr :=
  let trimmed := trimSpace raw
  if trimmed = [] then []
  else if trimmed.length > 3900 then trimmed.take 3900 ++ ("...".toList)
  else trimmed

/-- `buildTelegramMessage` from `src/main.go`: the trimmed field lines,
falling back to `fallbackRaw raw` when empty, and otherwise followed by
the `---`-separated raw excerpt when that excerpt is non-empty. -/
def buildTelegramMessage (payload : Payload) (raw : GoStr) : GoStr :=
  let text := trimSpace (fieldLines payload)
  if text = [] then fallbackRaw raw
  else
    let rawText := fallbackRaw raw
    if rawText = [] then text
    else text ++ ("\n---\n".toList) ++ rawText

/-- The provider side of one `sendMessage` attempt: a transport error
(`httpClient.Do` fails), or a reply with HTTP status, raw body, and the
result of JSON-decoding the body into the `{ok, description}` struct
(`none` models a decode error). -/
inductive ProviderBehavior where
  | transportError
  | reply (status : Nat) (body : GoStr) (decoded : Option (Bool × GoStr))
deriving Repr

/-- The outcome of `telegramClient.sendMessage` from `src/main.go`. -/
inductive DispatchOutcome where
  | emptyMessage
  | transportFailure
  | httpFailure (status : Nat) (excerpt : GoStr)
  | decodeFailure
  | apiFailure (description : GoStr)
  | ok
deriving Repr, DecidableEq

/-- `telegramClient.sendMessage` from `src/main.go`: fail fast on an
empty/whitespace text, otherwise interpret the provider's response
(status ≥ 300 fails with a 512-byte excerpt; a 2xx body must decode to
`ok: true`, with a missing description replaced by `unknown error`). -/
def sendMessage (text : GoStr) (provider : ProviderBehavior) : DispatchOutcome :=
  if trimSpace text = [] then DispatchOutcome.emptyMessage
  else
    match provider with
    | ProviderBehavior.transportError => DispatchOutcome.transportFailure
    | ProviderBehavior.reply status body decoded =>
      if status ≥ 300 then
        DispatchOutcome.httpFailure status (trimSpace (body.take 512))
      else
        match decoded with
        | none => DispatchOutcome.decodeFailure
        | some (false, desc) =>
          DispatchOutcome.apiFailure (if desc = [] then ("unknown error".toList) else desc)
        | some (true, _) => DispatchOutcome.ok

/-- Number of outbound HTTP requests constructed and sent by one
`sendMessage` call: zero when the empty-text guard fires (the guard
returns before `http.NewRequestWithContext`), one otherwise. -/
def sendMessageNetworkCalls (text : GoStr) : Nat :=
  if trimSpace text = [] then 0 else 1

/-- The inbound request as seen by `webhookHandler`: method, the
`Authorization` header (`Header.Get` yields the empty string when the
header is absent), and the body bytes. -/
structure HttpRequest where
  method : GoStr
  authorization : GoStr
  body : GoStr
deriving Repr

/-- What `webhookHandler` produces for one request: HTTP status,
response body (`http.Error` appends a newline), the `Allow` header when
set, the text handed to `sendMessage` (`none` when the dispatcher was
never invoked), and the number of outbound network calls. -/
structure HandlerResult where
  status : Nat
  responseBody : GoStr
  allowHeader : Option GoStr
  dispatched : Option GoStr
  networkCalls : Nat
deriving Repr, DecidableEq

/-- The part of `webhookHandler` (`src/main.go`) after the method and
auth checks, acting on the bytes actually read from the request body:
the emptiness check, the tolerant JSON decode (a `Decode` error keeps
the empty map the Go code initialised, and processing continues),
composition, and dispatch with its response mapping.  `decode` is the
`encoding/json` decoder (external collaborator). -/
def handleBody (decode : GoStr → Option Payload) (provider : ProviderBehavior)
    (body : GoStr) : HandlerResult :=
  if body.length = 0 then
    { status := 400, responseBody := ("empty body\n".toList),
      allowHeader := none, dispatched := none, networkCalls := 0 }
  else
    let payload := (decode body).getD []
    let message := buildTelegramMessage payload body
    match sendMessage message provider with
    | DispatchOutcome.ok =>
      { status := 202, responseBody := ("\x7b\"ok\":true\x7d".toList),
        allowHeader := none, dispatched := some message,
        networkCalls := sendMessageNetworkCalls message }
    | _ =>
      { status := 502, responseBody := ("failed to forward notification\n".toList),
        allowHeader := none, dispatched := some message,
        networkCalls := sendMessageNetworkCalls message }

/-- `webhookHandler` from `src/main.go`: the method check (advertising
`POST` in the `Allow` header), the bearer-token auth check, then
`handleBody` on `io.ReadAll(io.LimitReader(r.Body, maxPayloadBytes))` —
which reads at most `maxPayloadBytes` bytes and reports no error when
the body is longer: it silently truncates. -/
def webhookHandler (webhookToken : GoStr) (decode : GoStr → Option Payload)
    (provider : ProviderBehavior) (r : HttpRequest) : HandlerResult :=
  if r.method ≠ ("POST".toList) then
    { status := 405, responseBody := ("method not allowed\n".toList),
      allowHeader := some ("POST".toList), dispatched := none, networkCalls := 0 }
  else if r.authorization ≠ ("Bearer ".toList) ++ webhookToken then
    { status := 401, responseBody := ("unauthorized\n".toList),
      allowHeader := none, dispatched := none, networkCalls := 0 }
  else
    handleBody decode provider (r.body.take maxPayloadBytes)

/-- Concrete stand-in for the external JSON decoder that fails on every
input (modelling a `Decode` error), used to instantiate theorems at
concrete requests. -/
def decodeNone : GoStr → Option Payload := fun _ => none

/-- Concrete provider reply modelling a healthy Telegram API: HTTP 200
with body `{"ok":true}` decoding to the success flag. -/
def okProvider : ProviderBehavior :=
  ProviderBehavior.reply 200 ("\x7b\"ok\":true\x7d".toList) (some (true, []))

/-- A concrete request body one byte longer than the 1 MiB cap. -/
def bigBody : GoStr := List.replicate (maxPayloadBytes + 1) 'a'

/-! ## Helper lemmas -/

/-- Dropping a whitespace prefix from a run of non-whitespace characters
is the identity. -/
theorem dropWhile_replicate_of_not {p : Char → Bool} {a : Char} (h : p a = false) :
    ∀ n, List.dropWhile p (List.replicate n a) = List.replicate n a := by
  intro n
  cases n with
  | zero => rfl
  | succ m => rw [List.replicate_succ, List.dropWhile_cons, h]; simp

/-- `strings.TrimSpace` leaves a run of non-whitespace characters
unchanged. -/
theorem trimSpace_replicate {a : Char} (h : isGoSpace a = false) (n : Nat) :
    trimSpace (List.replicate n a) = List.replicate n a := by
  unfold trimSpace
  rw [dropWhile_replicate_of_not h, List.reverse_replicate,
    dropWhile_replicate_of_not h, List.reverse_replicate]

/-- An element that does not satisfy the predicate survives `dropWhile`. -/
theorem mem_dropWhile_of_not {p : Char → Bool} {c : Char} :
    ∀ {l : GoStr}, c ∈ l → p c = false → c ∈ List.dropWhile p l := by
  intro l
  induction l with
  | nil => intro h; cases h
  | cons x xs ih =>
    intro hmem hpc
    rw [List.dropWhile_cons]
    by_cases hx : p x = true
    · simp only [hx, if_true]
      rcases List.mem_cons.mp hmem with rfl | hxs
      · rw [hpc] at hx; cases hx
      · exact ih hxs hpc
    · simp only [hx, if_false]
      exact hmem

/-- A string containing a non-whitespace character does not trim to the
empty string. -/
theorem trimSpace_ne_nil_of_mem {c : Char} {s : GoStr}
    (hmem : c ∈ s) (hc : isGoSpace c = false) : trimSpace s ≠ [] := by
  intro hnil
  unfold trimSpace at hnil
  rw [List.reverse_eq_nil_iff, List.dropWhile_eq_nil_iff] at hnil
  have h1 : c ∈ List.dropWhile isGoSpace s := mem_dropWhile_of_not hmem hc
  have h2 : c ∈ (List.dropWhile isGoSpace s).reverse := List.mem_reverse.mpr h1
  have := hnil c h2
  rw [hc] at this
  cases this

/-- A string of whitespace characters trims to the empty string. -/
theorem trimSpace_eq_nil_of_all {s : GoStr}
    (h : ∀ c ∈ s, isGoSpace c = true) : trimSpace s = [] := by
  unfold trimSpace
  have h1 : List.dropWhile isGoSpace s = [] := List.dropWhile_eq_nil_iff.mpr h
  rw [h1]
  rfl

/-- With the empty payload nothing is extractable, so the composer takes
the raw-fallback path. -/
theorem buildTelegramMessage_nil_payload (raw : GoStr) :
    buildTelegramMessage [] raw = fallbackRaw raw := by
  have h : trimSpace (fieldLines []) = [] := by decide
  simp [buildTelegramMessage, h]

/-- Behind the method and auth checks, `webhookHandler` acts on the
body truncated to `maxPayloadBytes`. -/
theorem webhookHandler_post_auth (token : GoStr) (decode : GoStr → Option Payload)
    (provider : ProviderBehavior) (r : HttpRequest)
    (hm : r.method = ("POST".toList))
    (ha : r.authorization = ("Bearer ".toList) ++ token) :
    webhookHandler token decode provider r =
      handleBody decode provider (r.body.take maxPayloadBytes) := by
  rw [webhookHandler, if_neg (by rw [hm]; simp), if_neg (by rw [ha]; simp)]

/-- `handleBody` on a non-empty body: the composed message is handed to
the dispatcher and the outcome decides between 202 and 502. -/
theorem handleBody_dispatch_ok (decode : GoStr → Option Payload)
    (provider : ProviderBehavior) (body : GoStr) (hb : body ≠ [])
    (hok : sendMessage (buildTelegramMessage ((decode body).getD []) body) provider =
      DispatchOutcome.ok) :
    handleBody decode provider body =
      { status := 202, responseBody := ("\x7b\"ok\":true\x7d".toList),
        allowHeader := none,
        dispatched := some (buildTelegramMessage ((decode body).getD []) body),
        networkCalls :=
          sendMessageNetworkCalls (buildTelegramMessage ((decode body).getD []) body) } := by
  rw [handleBody, if_neg (by simpa [List.length_eq_zero] using hb)]
  dsimp only
  rw [hok]

/-- `handleBody` on a non-empty body when the dispatcher fails. -/
theorem handleBody_dispatch_fail (decode : GoStr → Option Payload)
    (provider : ProviderBehavior) (body : GoStr) (hb : body ≠ [])
    (hfail : sendMessage (buildTelegramMessage ((decode body).getD []) body) provider ≠
      DispatchOutcome.ok) :
    handleBody decode provider body =
      { status := 502, responseBody := ("failed to forward notification\n".toList),
        allowHeader := none,
        dispatched := some (buildTelegramMessage ((decode body).getD []) body),
        networkCalls :=
          sendMessageNetworkCalls (buildTelegramMessage ((decode body).getD []) body) } := by
  rw [handleBody, if_neg (by simpa [List.length_eq_zero] using hb)]
  dsimp only
  cases h : sendMessage (buildTelegramMessage ((decode body).getD []) body) provider with
  | emptyMessage => rfl
  | transportFailure => rfl
  | httpFailure st ex => rfl
  | decodeFailure => rfl
  | apiFailure d => rfl
  | ok => exact absurd h hfail

/-- `handleBody` on the empty body: 400, nothing composed or
dispatched. -/
theorem handleBody_empty (decode : GoStr → Option Payload)
    (provider : ProviderBehavior) :
    handleBody decode provider [] =
      { status := 400, responseBody := ("empty body\n".toList),
        allowHeader := none, dispatched := none, networkCalls := 0 } := by
  rw [handleBody]
  rfl

/-! ## Claim theorems -/

/-- C8: for every text that is empty or whitespace-only, the dispatcher's
`sendMessage` fails fast with the local empty-message error and
constructs/sends no outbound HTTP request. -/
theorem sendMessage_whitespace_fails_fast_no_network (text : GoStr)
    (provider : ProviderBehavior) (h : trimSpace text = []) :
    sendMessage text provider = DispatchOutcome.emptyMessage ∧
    sendMessageNetworkCalls text = 0 := by
  unfold sendMessage sendMessageNetworkCalls
  rw [if_pos h, if_pos h]
  exact ⟨rfl, rfl⟩

/-- Witness for C8 at the concrete whitespace text `" \t "` against a
provider that would fail at transport level. -/
theorem sendMessage_whitespace_fails_fast_no_network_witness :
    trimSpace (" \t ".toList) = [] ∧
    (sendMessage (" \t ".toList) ProviderBehavior.transportError =
        DispatchOutcome.emptyMessage ∧
     sendMessageNetworkCalls (" \t ".toList) = 0) :=
  ⟨by decide, sendMessage_whitespace_fails_fast_no_network _ _ (by decide)⟩

/-- C9: with `decoder.UseNumber()` a numeric field value reaches
`stringFromMap` as a `json.Number` and renders as exactly its literal
text — the rendering introduces no artifact, so a whole number written
as an integer literal renders without a decimal point or exponent. -/
theorem stringFromMap_number_renders_literal (payload : Payload) (key lit : GoStr)
    (h : List.lookup key payload = some (JsonValue.num lit)) :
    stringFromMap payload key = lit ∧
    ('.' ∉ lit → '.' ∉ stringFromMap payload key) ∧
    ('e' ∉ lit → 'e' ∉ stringFromMap payload key) ∧
    ('E' ∉ lit → 'E' ∉ stringFromMap payload key) := by
  have he : stringFromMap payload key = lit := by
    unfold stringFromMap
    rw [h]
  exact ⟨he, fun hd => he ▸ hd, fun hd => he ▸ hd, fun hd => he ▸ hd⟩

/-- Witness for C9 at the concrete payload `{"ping": 42}`. -/
theorem stringFromMap_number_renders_literal_witness :
    List.lookup ("ping".toList) ([(("ping".toList), JsonValue.num ("42".toList))]) =
      some (JsonValue.num ("42".toList)) ∧
    stringFromMap ([(("ping".toList), JsonValue.num ("42".toList))]) ("ping".toList) =
      ("42".toList) :=
  ⟨rfl, (stringFromMap_number_renders_literal
      ([(("ping".toList), JsonValue.num ("42".toList))]) ("ping".toList)
      ("42".toList) rfl).1⟩

/-- C10: a string field value is trimmed before use, and a field whose
extracted value is empty (in particular one that is empty after
trimming) contributes no labeled line to the composed text. -/
theorem emptyAfterTrim_field_omitted :
    (∀ (p : Payload) (k s : GoStr), List.lookup k p = some (JsonValue.str s) →
        stringFromMap p k = trimSpace s)
    ∧ (∀ p : Payload, nestedString p [("monitor".toList), ("name".toList)] = [] →
        monitorLine p = [])
    ∧ (∀ p : Payload, stringFromMap p ("status".toList) = [] → statusLine p = [])
    ∧ (∀ p : Payload, stringFromMap p ("incidentReason".toList) = [] →
        stringFromMap p ("msg".toList) = [] → reasonLine p = [])
    ∧ (∀ p : Payload, nestedString p [("monitor".toList), ("url".toList)] = [] →
        urlLine p = [])
    ∧ (∀ p : Payload, stringFromMap p ("time".toList) = [] → timeLine p = [])
    ∧ (∀ p : Payload, stringFromMap p ("ping".toList) = [] → pingLine p = [])
    ∧ (∀ (p : Payload) (s : GoStr),
        List.lookup ("status".toList) p = some (JsonValue.str s) →
        trimSpace s = [] → statusLine p = []) := by
  refine ⟨?_, ?_, ?_, ?_, ?_, ?_, ?_, ?_⟩
  · intro p k s h
    unfold stringFromMap
    rw [h]
  · intro p h
    simp only [monitorLine]
    rw [h]
    simp
  · intro p h
    simp only [statusLine]
    rw [h]
    simp
  · intro p h1 h2
    simp only [reasonLine]
    rw [h1, h2]
    simp
  · intro p h
    simp only [urlLine]
    rw [h]
    simp
  · intro p h
    simp only [timeLine]
    rw [h]
    simp
  · intro p h
    simp only [pingLine]
    rw [h]
    simp
  · intro p s h hts
    have hv : stringFromMap p ("status".toList) = [] := by
      unfold stringFromMap
      rw [h]
      exact hts
    simp only [statusLine]
    rw [hv]
    simp

/-- Witness for C10: the value `" hi "` is used trimmed, and a status of
`"  "` (empty after trimming) yields no `Status:` line. -/
theorem emptyAfterTrim_field_omitted_witness :
    (List.lookup ("msg".toList) ([(("msg".toList), JsonValue.str (" hi ".toList))]) =
        some (JsonValue.str (" hi ".toList)) ∧
     stringFromMap ([(("msg".toList), JsonValue.str (" hi ".toList))]) ("msg".toList) =
        trimSpace (" hi ".toList)) ∧
    (trimSpace ("  ".toList) = [] ∧
     statusLine ([(("status".toList), JsonValue.str ("  ".toList))]) = []) :=
  ⟨⟨rfl, emptyAfterTrim_field_omitted.1 _ _ _ rfl⟩,
   ⟨by decide, emptyAfterTrim_field_omitted.2.2.2.2.2.2.2 _ _ rfl (by decide)⟩⟩

/-- Counterexample for C1: the payload `{"msg":"a_b"}` carries a field
value containing `_`, a character of Telegram's MarkdownV2
special-character set, yet the composed text contains that `_` with no
backslash anywhere — the occurrence inside the extracted-field segment
is unescaped. -/
theorem unescaped_specialChar_counterexample :
    '_' ∈ buildTelegramMessage ([(("msg".toList), JsonValue.str ("a_b".toList))])
        ("x".toList) ∧
    '\\' ∉ buildTelegramMessage ([(("msg".toList), JsonValue.str ("a_b".toList))])
        ("x".toList) := by
  decide

/-- An element of `dropWhile p l` is an element of `l`. -/
theorem mem_of_mem_dropWhile {p : Char → Bool} {c : Char} :
    ∀ {l : GoStr}, c ∈ List.dropWhile p l → c ∈ l := by
  intro l
  induction l with
  | nil => intro h; exact h
  | cons x xs ih =>
    intro h
    rw [List.dropWhile_cons] at h
    by_cases hx : p x = true
    · rw [if_pos hx] at h
      exact List.mem_cons_of_mem x (ih h)
    · rw [if_neg hx] at h
      exact h

/-- `strings.TrimSpace` never adds characters. -/
theorem mem_of_mem_trimSpace {c : Char} {s : GoStr} (h : c ∈ trimSpace s) :
    c ∈ s := by
  unfold trimSpace at h
  rw [List.mem_reverse] at h
  have h1 := mem_of_mem_dropWhile h
  rw [List.mem_reverse] at h1
  exact mem_of_mem_dropWhile h1

/-- Every character of `fallbackRaw raw` comes from `raw` or from the
`...` truncation marker. -/
theorem mem_of_mem_fallbackRaw {c : Char} {raw : GoStr}
    (h : c ∈ fallbackRaw raw) : c ∈ raw ∨ c ∈ ("...".toList) := by
  simp only [fallbackRaw] at h
  by_cases h1 : trimSpace raw = []
  · rw [if_pos h1] at h
    exact absurd h (by simp)
  · rw [if_neg h1] at h
    by_cases h2 : (trimSpace raw).length > 3900
    · rw [if_pos h2] at h
      rcases List.mem_append.mp h with h3 | h3
      · exact Or.inl (mem_of_mem_trimSpace (List.mem_of_mem_take h3))
      · exact Or.inr h3
    · rw [if_neg h2] at h
      exact Or.inl (mem_of_mem_trimSpace h)

/-- C1 as amended: the composer performs no escaping — each extracted
field value is embedded with its characters unchanged between its label
and the terminating newline, the single exception being the status
value, which is uppercased before embedding (but still not escaped);
both branches of the reason field (`incidentReason`, falling back to
`msg`) embed the value verbatim; and no escape prefix is ever inserted:
the composed text contains a backslash only where the field lines or
the raw body already did. -/
theorem fields_embedded_verbatim_unescaped :
    (∀ (p : Payload) (v : GoStr),
        nestedString p [("monitor".toList), ("name".toList)] = v → v ≠ [] →
        monitorLine p = ("Monitor: ".toList) ++ v ++ ['\n'])
    ∧ (∀ (p : Payload) (v : GoStr),
        stringFromMap p ("status".toList) = v → v ≠ [] →
        statusLine p = ("Status: ".toList) ++ goToUpper v ++ ['\n'])
    ∧ (∀ (p : Payload) (v : GoStr),
        stringFromMap p ("incidentReason".toList) = v → v ≠ [] →
        reasonLine p = ("Reason: ".toList) ++ v ++ ['\n'])
    ∧ (∀ (p : Payload) (v : GoStr),
        stringFromMap p ("incidentReason".toList) = [] →
        stringFromMap p ("msg".toList) = v → v ≠ [] →
        reasonLine p = ("Reason: ".toList) ++ v ++ ['\n'])
    ∧ (∀ (p : Payload) (v : GoStr),
        nestedString p [("monitor".toList), ("url".toList)] = v → v ≠ [] →
        urlLine p = ("URL: ".toList) ++ v ++ ['\n'])
    ∧ (∀ (p : Payload) (v : GoStr),
        stringFromMap p ("time".toList) = v → v ≠ [] →
        timeLine p = ("Time: ".toList) ++ v ++ ['\n'])
    ∧ (∀ (p : Payload) (v : GoStr),
        stringFromMap p ("ping".toList) = v → v ≠ [] →
        pingLine p = ("Ping: ".toList) ++ v ++ ['\n'])
    ∧ (∀ (p : Payload) (raw : GoStr),
        '\\' ∉ fieldLines p → '\\' ∉ raw →
        '\\' ∉ buildTelegramMessage p raw) := by
  refine ⟨?_, ?_, ?_, ?_, ?_, ?_, ?_, ?_⟩
  · intro p v h hne
    simp only [monitorLine]
    rw [h, if_neg hne]
  · intro p v h hne
    simp only [statusLine]
    rw [h, if_neg hne]
  · intro p v h hne
    simp only [reasonLine]
    rw [h, if_neg hne, if_neg hne]
  · intro p v h0 h hne
    simp only [reasonLine]
    rw [h0, if_pos rfl, h, if_neg hne]
  · intro p v h hne
    simp only [urlLine]
    rw [h, if_neg hne]
  · intro p v h hne
    simp only [timeLine]
    rw [h, if_neg hne]
  · intro p v h hne
    simp only [pingLine]
    rw [h, if_neg hne]
  · intro p raw hf hr hmem
    simp only [buildTelegramMessage] at hmem
    by_cases ht : trimSpace (fieldLines p) = []
    · rw [if_pos ht] at hmem
      rcases mem_of_mem_fallbackRaw hmem with h | h
      · exact hr h
      · exact absurd h (by decide)
    · rw [if_neg ht] at hmem
      by_cases hrw : fallbackRaw raw = []
      · rw [if_pos hrw] at hmem
        exact hf (mem_of_mem_trimSpace hmem)
      · rw [if_neg hrw] at hmem
        rcases List.mem_append.mp hmem with h | h
        · rcases List.mem_append.mp h with h2 | h2
          · exact hf (mem_of_mem_trimSpace h2)
          · exact absurd h2 (by decide)
        · rcases mem_of_mem_fallbackRaw h with h2 | h2
          · exact hr h2
          · exact absurd h2 (by decide)

/-- Witness for the amended C1: on a payload exercising every field the
lines embed each value unchanged — underscores included — status alone
uppercased, the `msg` fallback verbatim, and a backslash-free payload
composes to a backslash-free text. -/
theorem fields_embedded_verbatim_unescaped_witness :
    monitorLine ([(("monitor".toList),
        JsonValue.obj [(("name".toList), JsonValue.str ("n_1".toList)),
                       (("url".toList), JsonValue.str ("http://x_y".toList))])]) =
      ("Monitor: ".toList) ++ ("n_1".toList) ++ ['\n'] ∧
    statusLine ([(("status".toList), JsonValue.str ("up".toList))]) =
      ("Status: ".toList) ++ goToUpper ("up".toList) ++ ['\n'] ∧
    reasonLine ([(("incidentReason".toList), JsonValue.str ("a_b".toList))]) =
      ("Reason: ".toList) ++ ("a_b".toList) ++ ['\n'] ∧
    reasonLine ([(("msg".toList), JsonValue.str ("m_1".toList))]) =
      ("Reason: ".toList) ++ ("m_1".toList) ++ ['\n'] ∧
    urlLine ([(("monitor".toList),
        JsonValue.obj [(("name".toList), JsonValue.str ("n_1".toList)),
                       (("url".toList), JsonValue.str ("http://x_y".toList))])]) =
      ("URL: ".toList) ++ ("http://x_y".toList) ++ ['\n'] ∧
    timeLine ([(("time".toList), JsonValue.str ("t_1".toList))]) =
      ("Time: ".toList) ++ ("t_1".toList) ++ ['\n'] ∧
    pingLine ([(("ping".toList), JsonValue.num ("42".toList))]) =
      ("Ping: ".toList) ++ ("42".toList) ++ ['\n'] ∧
    '\\' ∉ buildTelegramMessage ([(("msg".toList), JsonValue.str ("a_b".toList))])
      ("x".toList) :=
  ⟨fields_embedded_verbatim_unescaped.1 _ ("n_1".toList) (by decide) (by decide),
   fields_embedded_verbatim_unescaped.2.1 _ ("up".toList) (by decide) (by decide),
   fields_embedded_verbatim_unescaped.2.2.1 _ ("a_b".toList) (by decide) (by decide),
   fields_embedded_verbatim_unescaped.2.2.2.1 _ ("m_1".toList) (by decide) (by decide)
     (by decide),
   fields_embedded_verbatim_unescaped.2.2.2.2.1 _ ("http://x_y".toList) (by decide)
     (by decide),
   fields_embedded_verbatim_unescaped.2.2.2.2.2.1 _ ("t_1".toList) (by decide)
     (by decide),
   fields_embedded_verbatim_unescaped.2.2.2.2.2.2.1 _ ("42".toList) (by decide)
     (by decide),
   fields_embedded_verbatim_unescaped.2.2.2.2.2.2.2 _ _ (by decide) (by decide)⟩

/-- Counterexample for C2: for payloads whose status is `"up"`,
`"down"`, or the unrecognized `"strange"`, the composed text starts with
the same eight characters `Status: ` — no per-category distinct leading
marker exists, and the unrecognized status gets no distinct default
marker either. -/
theorem statusMarker_counterexample :
    (buildTelegramMessage ([(("status".toList), JsonValue.str ("up".toList))])
        ("x".toList)).take 8 = ("Status: ".toList) ∧
    (buildTelegramMessage ([(("status".toList), JsonValue.str ("down".toList))])
        ("x".toList)).take 8 = ("Status: ".toList) ∧
    (buildTelegramMessage ([(("status".toList), JsonValue.str ("strange".toList))])
        ("x".toList)).take 8 = ("Status: ".toList) ∧
    (buildTelegramMessage ([]) ("x".toList)).take 8 = ("x".toList) := by
  decide

/-- C2 as amended: the composer performs no status classification and
chooses no marker — every non-empty extracted status value, recognized
or not, is rendered as the uniform line `Status: ` followed by the
uppercased value, and an absent or empty status simply yields no status
line. -/
theorem status_uppercased_no_marker :
    (∀ (p : Payload) (v : GoStr),
        stringFromMap p ("status".toList) = v → v ≠ [] →
        statusLine p = ("Status: ".toList) ++ goToUpper v ++ ['\n'])
    ∧ (∀ p : Payload, stringFromMap p ("status".toList) = [] →
        statusLine p = []) := by
  constructor
  · intro p v h hne
    simp only [statusLine]
    rw [h, if_neg hne]
  · intro p h
    simp only [statusLine]
    rw [h]
    simp

/-- Witness for the amended C2 at status `"up"` and at an absent
status. -/
theorem status_uppercased_no_marker_witness :
    (stringFromMap ([(("status".toList), JsonValue.str ("up".toList))])
        ("status".toList) = ("up".toList) ∧
     statusLine ([(("status".toList), JsonValue.str ("up".toList))]) =
       ("Status: ".toList) ++ goToUpper ("up".toList) ++ ['\n']) ∧
    (stringFromMap ([]) ("status".toList) = [] ∧ statusLine ([]) = []) :=
  ⟨⟨by decide, status_uppercased_no_marker.1
      ([(("status".toList), JsonValue.str ("up".toList))]) ("up".toList)
      (by decide) (by decide)⟩,
   ⟨rfl, status_uppercased_no_marker.2 ([]) rfl⟩⟩

/-- C6: when no fields were extractable (in particular for the empty
JSON object) the composed text equals the raw fallback — the trimmed raw
bytes, capped at 3900 characters with the `...` truncation marker when
the cap is exceeded — and when fields were extracted the same bounded
excerpt is appended after a `---` separator as a trailing section. -/
theorem compose_raw_fallback_and_trailer :
    (∀ (p : Payload) (raw : GoStr), trimSpace (fieldLines p) = [] →
        buildTelegramMessage p raw = fallbackRaw raw)
    ∧ (∀ raw : GoStr, buildTelegramMessage ([]) raw = fallbackRaw raw)
    ∧ (∀ raw : GoStr, (trimSpace raw).length ≤ 3900 →
        fallbackRaw raw = trimSpace raw)
    ∧ (∀ raw : GoStr, (trimSpace raw).length > 3900 →
        fallbackRaw raw = (trimSpace raw).take 3900 ++ ("...".toList))
    ∧ (∀ (p : Payload) (raw : GoStr), trimSpace (fieldLines p) ≠ [] →
        fallbackRaw raw ≠ [] →
        buildTelegramMessage p raw =
          trimSpace (fieldLines p) ++ ("\n---\n".toList) ++ fallbackRaw raw) := by
  refine ⟨?_, ?_, ?_, ?_, ?_⟩
  · intro p raw h
    simp only [buildTelegramMessage]
    rw [h]
    simp
  · intro raw
    exact buildTelegramMessage_nil_payload raw
  · intro raw h
    simp only [fallbackRaw]
    by_cases htr : trimSpace raw = []
    · rw [if_pos htr]
      exact htr.symm
    · rw [if_neg htr, if_neg (by omega)]
  · intro raw h
    have htr : trimSpace raw ≠ [] := by
      intro e
      rw [e] at h
      simp at h
    simp only [fallbackRaw]
    rw [if_neg htr, if_pos h]
  · intro p raw h1 h2
    simp only [buildTelegramMessage]
    rw [if_neg h1, if_neg h2]

/-- Witness for C6, exercising every branch: the empty payload with a
short raw body, a 3901-character raw body that gets truncated, and an
extracted-fields payload with the trailing raw section. -/
theorem compose_raw_fallback_and_trailer_witness :
    (trimSpace (fieldLines ([(("foo".toList), JsonValue.null)])) = [] ∧
     buildTelegramMessage ([(("foo".toList), JsonValue.null)]) ("y".toList) =
       fallbackRaw ("y".toList)) ∧
    buildTelegramMessage ([]) ("x".toList) = fallbackRaw ("x".toList) ∧
    ((trimSpace ("x".toList)).length ≤ 3900 ∧
     fallbackRaw ("x".toList) = trimSpace ("x".toList)) ∧
    ((trimSpace (List.replicate 3901 'a')).length > 3900 ∧
     fallbackRaw (List.replicate 3901 'a') =
       (trimSpace (List.replicate 3901 'a')).take 3900 ++ ("...".toList)) ∧
    (trimSpace (fieldLines ([(("status".toList), JsonValue.str ("up".toList))])) ≠ [] ∧
     fallbackRaw ("x".toList) ≠ [] ∧
     buildTelegramMessage ([(("status".toList), JsonValue.str ("up".toList))])
         ("x".toList) =
       trimSpace (fieldLines ([(("status".toList), JsonValue.str ("up".toList))])) ++
         ("\n---\n".toList) ++ fallbackRaw ("x".toList)) := by
  have hlen : (trimSpace (List.replicate 3901 'a')).length > 3900 := by
    rw [trimSpace_replicate (by decide), List.length_replicate]
    decide
  refine ⟨⟨by decide, compose_raw_fallback_and_trailer.1 _ _ (by decide)⟩,
    compose_raw_fallback_and_trailer.2.1 _,
    ⟨by decide, compose_raw_fallback_and_trailer.2.2.1 _ (by decide)⟩,
    ⟨hlen, compose_raw_fallback_and_trailer.2.2.2.1 _ hlen⟩,
    ⟨by decide, by decide, compose_raw_fallback_and_trailer.2.2.2.2 _ _ (by decide) (by decide)⟩⟩

/-- C4: the handler's response mapping — a non-`POST` method gets 405
with `Allow: POST` and no outbound call; a `POST` whose `Authorization`
header differs from `Bearer <token>` (including an absent header, i.e.
the empty string) gets 401 with no body processing and no outbound
call; a successful dispatch gets 202 with body `{"ok":true}`; a failed
dispatch — in particular the provider answering HTTP 500 — gets 502. -/
theorem handler_response_mapping (token : GoStr) (decode : GoStr → Option Payload)
    (provider : ProviderBehavior) (r : HttpRequest) :
    (r.method ≠ ("POST".toList) →
      webhookHandler token decode provider r =
        { status := 405, responseBody := ("method not allowed\n".toList),
          allowHeader := some ("POST".toList), dispatched := none, networkCalls := 0 })
    ∧ (r.method = ("POST".toList) →
       r.authorization ≠ ("Bearer ".toList) ++ token →
       webhookHandler token decode provider r =
         { status := 401, responseBody := ("unauthorized\n".toList),
           allowHeader := none, dispatched := none, networkCalls := 0 })
    ∧ (r.method = ("POST".toList) →
       r.authorization = ("Bearer ".toList) ++ token →
       r.body.take maxPayloadBytes ≠ [] →
       sendMessage (buildTelegramMessage
           ((decode (r.body.take maxPayloadBytes)).getD [])
           (r.body.take maxPayloadBytes)) provider = DispatchOutcome.ok →
       (webhookHandler token decode provider r).status = 202 ∧
       (webhookHandler token decode provider r).responseBody =
         ("\x7b\"ok\":true\x7d".toList))
    ∧ (r.method = ("POST".toList) →
       r.authorization = ("Bearer ".toList) ++ token →
       r.body.take maxPayloadBytes ≠ [] →
       sendMessage (buildTelegramMessage
           ((decode (r.body.take maxPayloadBytes)).getD [])
           (r.body.take maxPayloadBytes)) provider ≠ DispatchOutcome.ok →
       (webhookHandler token decode provider r).status = 502)
    ∧ (∀ (b : GoStr) (d : Option (Bool × GoStr)),
       provider = ProviderBehavior.reply 500 b d →
       r.method = ("POST".toList) →
       r.authorization = ("Bearer ".toList) ++ token →
       r.body.take maxPayloadBytes ≠ [] →
       (webhookHandler token decode provider r).status = 502) := by
  refine ⟨?_, ?_, ?_, ?_, ?_⟩
  · intro h
    rw [webhookHandler, if_pos h]
  · intro hm ha
    rw [webhookHandler, if_neg (by rw [hm]; simp), if_pos ha]
  · intro hm ha hb hok
    rw [webhookHandler_post_auth token decode provider r hm ha,
      handleBody_dispatch_ok decode provider _ hb hok]
    exact ⟨rfl, rfl⟩
  · intro hm ha hb hfail
    rw [webhookHandler_post_auth token decode provider r hm ha,
      handleBody_dispatch_fail decode provider _ hb hfail]
  · intro b d hp hm ha hb
    subst hp
    have hfail : sendMessage (buildTelegramMessage
        ((decode (r.body.take maxPayloadBytes)).getD [])
        (r.body.take maxPayloadBytes)) (ProviderBehavior.reply 500 b d) ≠
        DispatchOutcome.ok := by
      unfold sendMessage
      by_cases hts : trimSpace (buildTelegramMessage
          ((decode (r.body.take maxPayloadBytes)).getD [])
          (r.body.take maxPayloadBytes)) = []
      · rw [if_pos hts]
        simp
      · rw [if_neg hts]
        simp
    rw [webhookHandler_post_auth token decode (ProviderBehavior.reply 500 b d) r hm ha,
      handleBody_dispatch_fail decode (ProviderBehavior.reply 500 b d) _ hb hfail]

/-- Witness for C4: a `GET`, a wrong bearer token, a successful
dispatch, a transport failure, and a provider answering HTTP 500, all
at concrete requests. -/
theorem handler_response_mapping_witness :
    (("GET".toList : GoStr) ≠ ("POST".toList) ∧
     webhookHandler ("t".toList) decodeNone okProvider
        { method := ("GET".toList), authorization := [], body := ("b".toList) } =
       { status := 405, responseBody := ("method not allowed\n".toList),
         allowHeader := some ("POST".toList), dispatched := none, networkCalls := 0 }) ∧
    (("Bearer x".toList : GoStr) ≠ ("Bearer ".toList) ++ ("t".toList) ∧
     webhookHandler ("t".toList) decodeNone okProvider
        { method := ("POST".toList), authorization := ("Bearer x".toList),
          body := ("b".toList) } =
       { status := 401, responseBody := ("unauthorized\n".toList),
         allowHeader := none, dispatched := none, networkCalls := 0 }) ∧
    ((webhookHandler ("t".toList) decodeNone okProvider
        { method := ("POST".toList), authorization := ("Bearer t".toList),
          body := ("b".toList) }).status = 202 ∧
     (webhookHandler ("t".toList) decodeNone okProvider
        { method := ("POST".toList), authorization := ("Bearer t".toList),
          body := ("b".toList) }).responseBody = ("\x7b\"ok\":true\x7d".toList)) ∧
    ((webhookHandler ("t".toList) decodeNone ProviderBehavior.transportError
        { method := ("POST".toList), authorization := ("Bearer t".toList),
          body := ("b".toList) }).status = 502) ∧
    ((webhookHandler ("t".toList) decodeNone (ProviderBehavior.reply 500 [] none)
        { method := ("POST".toList), authorization := ("Bearer t".toList),
          body := ("b".toList) }).status = 502) :=
  ⟨⟨by decide, (handler_response_mapping ("t".toList) decodeNone okProvider
      { method := ("GET".toList), authorization := [], body := ("b".toList) }).1
      (by decide)⟩,
   ⟨by decide, (handler_response_mapping ("t".toList) decodeNone okProvider
      { method := ("POST".toList), authorization := ("Bearer x".toList),
        body := ("b".toList) }).2.1 (by decide) (by decide)⟩,
   (handler_response_mapping ("t".toList) decodeNone okProvider
      { method := ("POST".toList), authorization := ("Bearer t".toList),
        body := ("b".toList) }).2.2.1 (by decide) (by decide) (by decide) (by decide),
   (handler_response_mapping ("t".toList) decodeNone ProviderBehavior.transportError
      { method := ("POST".toList), authorization := ("Bearer t".toList),
        body := ("b".toList) }).2.2.2.1 (by decide) (by decide) (by decide) (by decide),
   (handler_response_mapping ("t".toList) decodeNone (ProviderBehavior.reply 500 [] none)
      { method := ("POST".toList), authorization := ("Bearer t".toList),
        body := ("b".toList) }).2.2.2.2 [] none rfl (by decide) (by decide) (by decide)⟩

/-- C5: a non-empty body whose JSON decode fails does not abort the
request — the payload degrades to the empty object, processing reaches
Compose and Dispatch, the dispatched message is built from the raw body
bytes through the composer's raw-fallback path, and the response is the
dispatch outcome (202 or 502), never a 4xx. -/
theorem decode_failure_degrades_and_continues (token : GoStr)
    (decode : GoStr → Option Payload) (provider : ProviderBehavior)
    (r : HttpRequest)
    (hm : r.method = ("POST".toList))
    (ha : r.authorization = ("Bearer ".toList) ++ token)
    (hb : r.body.take maxPayloadBytes ≠ [])
    (hdec : decode (r.body.take maxPayloadBytes) = none) :
    (webhookHandler token decode provider r).dispatched =
      some (buildTelegramMessage [] (r.body.take maxPayloadBytes)) ∧
    buildTelegramMessage [] (r.body.take maxPayloadBytes) =
      fallbackRaw (r.body.take maxPayloadBytes) ∧
    ((webhookHandler token decode provider r).status = 202 ∨
     (webhookHandler token decode provider r).status = 502) := by
  have hmsg : (decode (r.body.take maxPayloadBytes)).getD [] = ([] : Payload) := by
    rw [hdec]
    rfl
  by_cases hok : sendMessage (buildTelegramMessage
      ((decode (r.body.take maxPayloadBytes)).getD [])
      (r.body.take maxPayloadBytes)) provider = DispatchOutcome.ok
  · rw [webhookHandler_post_auth token decode provider r hm ha,
      handleBody_dispatch_ok decode provider _ hb hok, hmsg]
    exact ⟨rfl, buildTelegramMessage_nil_payload _, Or.inl rfl⟩
  · rw [webhookHandler_post_auth token decode provider r hm ha,
      handleBody_dispatch_fail decode provider _ hb hok, hmsg]
    exact ⟨rfl, buildTelegramMessage_nil_payload _, Or.inr rfl⟩

/-- Witness for C5 at the concrete non-JSON body `notjson`. -/
theorem decode_failure_degrades_and_continues_witness :
    (("notjson".toList : GoStr).take maxPayloadBytes ≠ [] ∧
     decodeNone (("notjson".toList : GoStr).take maxPayloadBytes) = none) ∧
    ((webhookHandler ("t".toList) decodeNone okProvider
        { method := ("POST".toList), authorization := ("Bearer t".toList),
          body := ("notjson".toList) }).dispatched =
      some (buildTelegramMessage [] (("notjson".toList : GoStr).take maxPayloadBytes)) ∧
     buildTelegramMessage [] (("notjson".toList : GoStr).take maxPayloadBytes) =
      fallbackRaw (("notjson".toList : GoStr).take maxPayloadBytes) ∧
     ((webhookHandler ("t".toList) decodeNone okProvider
        { method := ("POST".toList), authorization := ("Bearer t".toList),
          body := ("notjson".toList) }).status = 202 ∨
      (webhookHandler ("t".toList) decodeNone okProvider
        { method := ("POST".toList), authorization := ("Bearer t".toList),
          body := ("notjson".toList) }).status = 502)) :=
  ⟨⟨by decide, rfl⟩,
   decode_failure_degrades_and_continues ("t".toList) decodeNone okProvider
     { method := ("POST".toList), authorization := ("Bearer t".toList),
       body := ("notjson".toList) } (by decide) (by decide) (by decide) rfl⟩

/-- A raw body that trims to nothing yields the empty fallback. -/
theorem fallbackRaw_of_trim_nil {raw : GoStr} (h : trimSpace raw = []) :
    fallbackRaw raw = [] := by
  simp only [fallbackRaw]
  rw [h]
  simp

/-- A raw body whose trimmed form exceeds 3900 characters is truncated
with the `...` marker. -/
theorem fallbackRaw_of_trim_long {raw : GoStr}
    (h : (trimSpace raw).length > 3900) :
    fallbackRaw raw = (trimSpace raw).take 3900 ++ ("...".toList) := by
  have hne : trimSpace raw ≠ [] := by
    intro e
    rw [e] at h
    simp at h
  simp only [fallbackRaw]
  rw [if_neg hne, if_pos h]

/-- The dispatcher's guard on the empty message fires before the
provider is ever consulted. -/
theorem sendMessage_nil_eq (provider : ProviderBehavior) :
    sendMessage [] provider = DispatchOutcome.emptyMessage := rfl

/-- Counterexample for C7: the whitespace-only body `" "` is NOT
rejected with 400 — it passes the `len(body) == 0` check (which does
not trim), the composer runs and produces the empty message, the
dispatcher is invoked and fails locally, and the handler answers 502. -/
theorem whitespaceBody_counterexample :
    webhookHandler ("t".toList) decodeNone okProvider
      { method := ("POST".toList), authorization := ("Bearer t".toList),
        body := (" ".toList) } =
    { status := 502, responseBody := ("failed to forward notification\n".toList),
      allowHeader := none, dispatched := some [], networkCalls := 0 } := by
  decide

/-- C7 as amended: only a zero-length body is rejected with 400 before
composing or dispatching; a non-empty body consisting solely of
whitespace passes the emptiness check (the handler does not trim),
composes to the empty message, and fails at the dispatcher's local
empty-message guard — the handler answers 502 with no outbound network
call. -/
theorem emptyBody_400_whitespaceBody_502 (token : GoStr)
    (decode : GoStr → Option Payload) (provider : ProviderBehavior)
    (r : HttpRequest) :
    (r.method = ("POST".toList) → r.authorization = ("Bearer ".toList) ++ token →
      r.body = [] →
      webhookHandler token decode provider r =
        { status := 400, responseBody := ("empty body\n".toList),
          allowHeader := none, dispatched := none, networkCalls := 0 })
    ∧ (r.method = ("POST".toList) → r.authorization = ("Bearer ".toList) ++ token →
       r.body ≠ [] → (∀ c ∈ r.body, isGoSpace c = true) →
       decode (r.body.take maxPayloadBytes) = none →
       (webhookHandler token decode provider r).status = 502 ∧
       (webhookHandler token decode provider r).networkCalls = 0 ∧
       (webhookHandler token decode provider r).dispatched = some []) := by
  constructor
  · intro hm ha hb
    rw [webhookHandler_post_auth token decode provider r hm ha, hb, List.take_nil]
    exact handleBody_empty decode provider
  · intro hm ha hb hws hdec
    have htake : r.body.take maxPayloadBytes ≠ [] := by
      intro h
      rcases List.take_eq_nil_iff.mp h with h0 | h0
      · exact absurd h0 (by decide)
      · exact hb h0
    have htrim : trimSpace (r.body.take maxPayloadBytes) = [] :=
      trimSpace_eq_nil_of_all (fun c hc => hws c (List.mem_of_mem_take hc))
    have hmsg : buildTelegramMessage ((decode (r.body.take maxPayloadBytes)).getD [])
        (r.body.take maxPayloadBytes) = [] := by
      rw [hdec, Option.getD_none, buildTelegramMessage_nil_payload,
        fallbackRaw_of_trim_nil htrim]
    have hfail : sendMessage (buildTelegramMessage
        ((decode (r.body.take maxPayloadBytes)).getD [])
        (r.body.take maxPayloadBytes)) provider ≠ DispatchOutcome.ok := by
      rw [hmsg, sendMessage_nil_eq]
      simp
    rw [webhookHandler_post_auth token decode provider r hm ha,
      handleBody_dispatch_fail decode provider _ htake hfail, hmsg]
    exact ⟨rfl, rfl, rfl⟩

/-- Witness for the amended C7 at the empty body and at the
single-space body. -/
theorem emptyBody_400_whitespaceBody_502_witness :
    webhookHandler ("t".toList) decodeNone okProvider
      { method := ("POST".toList), authorization := ("Bearer t".toList),
        body := [] } =
      { status := 400, responseBody := ("empty body\n".toList),
        allowHeader := none, dispatched := none, networkCalls := 0 } ∧
    ((webhookHandler ("t".toList) decodeNone okProvider
        { method := ("POST".toList), authorization := ("Bearer t".toList),
          body := (" ".toList) }).status = 502 ∧
     (webhookHandler ("t".toList) decodeNone okProvider
        { method := ("POST".toList), authorization := ("Bearer t".toList),
          body := (" ".toList) }).networkCalls = 0 ∧
     (webhookHandler ("t".toList) decodeNone okProvider
        { method := ("POST".toList), authorization := ("Bearer t".toList),
          body := (" ".toList) }).dispatched = some []) :=
  ⟨(emptyBody_400_whitespaceBody_502 ("t".toList) decodeNone okProvider
      { method := ("POST".toList), authorization := ("Bearer t".toList),
        body := [] }).1 (by decide) (by decide) rfl,
   (emptyBody_400_whitespaceBody_502 ("t".toList) decodeNone okProvider
      { method := ("POST".toList), authorization := ("Bearer t".toList),
        body := (" ".toList) }).2 (by decide) (by decide) (by decide)
      (by decide) rfl⟩

/-- Counterexample for C3: a request whose body is one byte longer than
the 1 MiB cap is NOT rejected with 400 and does NOT produce zero
outbound calls — `io.LimitReader` silently truncates the body to its
first `maxPayloadBytes` bytes, processing continues, and with a healthy
provider the handler answers 202 after one outbound call. -/
theorem oversizedBody_not_rejected_counterexample :
    bigBody.length > maxPayloadBytes ∧
    webhookHandler ("t".toList) decodeNone okProvider
      { method := ("POST".toList), authorization := ("Bearer t".toList),
        body := bigBody } =
      { status := 202, responseBody := ("\x7b\"ok\":true\x7d".toList),
        allowHeader := none,
        dispatched :=
          some ((List.replicate maxPayloadBytes 'a').take 3900 ++ ("...".toList)),
        networkCalls := 1 } := by
  have hlen : bigBody.length > maxPayloadBytes := by
    rw [bigBody, List.length_replicate]
    exact Nat.lt_succ_self _
  have htake : bigBody.take maxPayloadBytes = List.replicate maxPayloadBytes 'a' := by
    rw [bigBody, List.take_replicate]
    rw [Nat.min_eq_left (Nat.le_succ _)]
  have htrim : trimSpace (List.replicate maxPayloadBytes 'a') =
      List.replicate maxPayloadBytes 'a' := trimSpace_replicate (by decide) _
  have hnnil : List.replicate maxPayloadBytes 'a' ≠ [] := by
    intro h
    have hl := congrArg List.length h
    rw [List.length_replicate] at hl
    exact absurd hl (by decide)
  have htakene : bigBody.take maxPayloadBytes ≠ [] := by
    rw [htake]
    exact hnnil
  have hlong : (trimSpace (List.replicate maxPayloadBytes 'a')).length > 3900 := by
    rw [htrim, List.length_replicate]
    decide
  have hmsg : buildTelegramMessage ((decodeNone (bigBody.take maxPayloadBytes)).getD [])
      (bigBody.take maxPayloadBytes) =
      (List.replicate maxPayloadBytes 'a').take 3900 ++ ("...".toList) := by
    rw [show decodeNone (bigBody.take maxPayloadBytes) = none from rfl,
      Option.getD_none, buildTelegramMessage_nil_payload, htake,
      fallbackRaw_of_trim_long hlong, htrim]
  have hdot : ('.' : Char) ∈ (List.replicate maxPayloadBytes 'a').take 3900 ++
      ("...".toList) := List.mem_append_right _ (by decide)
  have hsendne : trimSpace ((List.replicate maxPayloadBytes 'a').take 3900 ++
      ("...".toList)) ≠ [] := trimSpace_ne_nil_of_mem hdot (by decide)
  have hok : sendMessage (buildTelegramMessage
      ((decodeNone (bigBody.take maxPayloadBytes)).getD [])
      (bigBody.take maxPayloadBytes)) okProvider = DispatchOutcome.ok := by
    rw [hmsg]
    unfold sendMessage
    rw [if_neg hsendne]
    rfl
  have hcalls : sendMessageNetworkCalls ((List.replicate maxPayloadBytes 'a').take 3900 ++
      ("...".toList)) = 1 := by
    unfold sendMessageNetworkCalls
    rw [if_neg hsendne]
  refine ⟨hlen, ?_⟩
  rw [webhookHandler_post_auth ("t".toList) decodeNone okProvider _ rfl rfl,
    handleBody_dispatch_ok decodeNone okProvider _ htakene hok, hmsg, hcalls]

/-- C3 as amended: a body longer than the 1 MiB cap is not rejected —
the handler silently reads only the first `maxPayloadBytes` bytes and
behaves exactly as it would on the truncated body: the request is never
answered 400 and the composed message is always dispatched. -/
theorem oversizedBody_truncated_and_processed (token : GoStr)
    (decode : GoStr → Option Payload) (provider : ProviderBehavior)
    (r : HttpRequest)
    (hm : r.method = ("POST".toList))
    (ha : r.authorization = ("Bearer ".toList) ++ token)
    (hlen : r.body.length > maxPayloadBytes) :
    webhookHandler token decode provider r =
      webhookHandler token decode provider
        { r with body := r.body.take maxPayloadBytes } ∧
    (webhookHandler token decode provider r).status ≠ 400 ∧
    (webhookHandler token decode provider r).dispatched ≠ none := by
  have htakene : r.body.take maxPayloadBytes ≠ [] := by
    intro h
    rcases List.take_eq_nil_iff.mp h with h0 | h0
    · exact absurd h0 (by decide)
    · rw [h0] at hlen
      simp at hlen
  refine ⟨?_, ?_⟩
  · rw [webhookHandler_post_auth token decode provider r hm ha,
      webhookHandler_post_auth token decode provider
        { r with body := r.body.take maxPayloadBytes } hm ha]
    show _ = handleBody decode provider ((r.body.take maxPayloadBytes).take maxPayloadBytes)
    rw [List.take_take, Nat.min_self]
  · rw [webhookHandler_post_auth token decode provider r hm ha]
    by_cases hok : sendMessage (buildTelegramMessage
        ((decode (r.body.take maxPayloadBytes)).getD [])
        (r.body.take maxPayloadBytes)) provider = DispatchOutcome.ok
    · rw [handleBody_dispatch_ok decode provider _ htakene hok]
      exact ⟨by simp, by simp⟩
    · rw [handleBody_dispatch_fail decode provider _ htakene hok]
      exact ⟨by simp, by simp⟩

/-- Witness for the amended C3 at the concrete 1 MiB + 1 body. -/
theorem oversizedBody_truncated_and_processed_witness :
    bigBody.length > maxPayloadBytes ∧
    ((webhookHandler ("t".toList) decodeNone ProviderBehavior.transportError
        { method := ("POST".toList), authorization := ("Bearer t".toList),
          body := bigBody }).status ≠ 400 ∧
     (webhookHandler ("t".toList) decodeNone ProviderBehavior.transportError
        { method := ("POST".toList), authorization := ("Bearer t".toList),
          body := bigBody }).dispatched ≠ none) := by
  have hlen : bigBody.length > maxPayloadBytes := by
    rw [bigBody, List.length_replicate]
    exact Nat.lt_succ_self _
  exact ⟨hlen, (oversizedBody_truncated_and_processed ("t".toList) decodeNone
    ProviderBehavior.transportError
    { method := ("POST".toList), authorization := ("Bearer t".toList),
      body := bigBody } rfl rfl hlen).2⟩
